import Mathlib

/-!
Shallow embedding of the LnF (lost-and-found device registry) Flask backend:
`src/backend/app.py` (register, login), `src/backend/routes.py` (device CRUD,
search, stats) and `src/backend/models.py` (User / Device models and queries).

Request bodies are JSON objects, modelled as association lists of `JVal`.
Python control flow that can raise (str.strip on a non-string, float() on an
unparseable string) is modelled with `Except Unit`; the surrounding
`try/except` blocks of the routes catch the error, roll the session back and
answer HTTP 500, which the embedding renders as returning the unchanged
store together with `ApiResult.fail 500 msg`.

Note: in `routes.py` the first 260 lines are a dead module-level string
literal; the operative route handlers are the ones after it.  The
`/devices/search` route only occurs inside that quoted block, while the
query helper `Device.search_devices` it calls is live code in `models.py`;
both are embedded here from the exact lines the claims cite.
-/

namespace LnF

/-- A JSON value as Flask's `request.get_json()` hands it to the handlers
(objects and arrays never occur as field values in the flows under study). -/
inductive JVal where
  | null : JVal
  | str : String → JVal
  | num : Rat → JVal
  | bool : Bool → JVal
deriving DecidableEq, Repr

/-- A parsed JSON request body: an association list of field names to values. -/
def Req := List (String × JVal)

instance : DecidableEq Req := by unfold Req; infer_instance

/-- `'k' in data` / `data[k]`: the value stored under key `k`, if present. -/
def reqFind (data : Req) (k : String) : Option JVal :=
  (List.find? (fun p => p.1 == k) data).map (fun p => p.2)

/-- Python `data.get(k)`: `None` when the key is absent. -/
def getJV (data : Req) (k : String) : JVal :=
  (reqFind data k).getD JVal.null

/-- Python `data.get(k, dflt)`: the default only applies when the key is
absent; a stored `null` is returned as `None`. -/
def getJVD (data : Req) (k : String) (dflt : JVal) : JVal :=
  (reqFind data k).getD dflt

/-- Python truthiness of a JSON value (`not data.get(...)` guards). -/
def pyTruthy : JVal → Bool
  | JVal.null => false
  | JVal.str s => s ≠ ""
  | JVal.num q => q ≠ 0
  | JVal.bool b => b

/-- Python `str.isspace` on the ASCII whitespace the backend can receive. -/
def isPySpace (c : Char) : Bool :=
  c == ' ' || c == '\t' || c == '\n' || c == '\r' || c == '\x0b' || c == '\x0c'

/-- Python `str.strip()` on the character list. -/
def trimChars (l : List Char) : List Char :=
  ((l.dropWhile isPySpace).reverse.dropWhile isPySpace).reverse

/-- Python `str.strip()`. -/
def pyStrip (s : String) : String :=
  String.mk (trimChars s.toList)

/-- Python `v.strip()` on a JSON value: raises (`Except.error`) unless the
value is a string. -/
def pyStripJ : JVal → Except Unit String
  | JVal.str s => Except.ok (pyStrip s)
  | _ => Except.error ()

/-- Digit list to the natural number it denotes. -/
def digitsToNat (ds : List Char) : Nat :=
  ds.foldl (fun a c => a * 10 + (c.toNat - '0'.toNat)) 0

/-- Value of a parsed decimal literal `sign (ip . fp) e ex` as a rational. -/
def decimalValue (sign : Int) (ip fp : List Char) (ex : Int) : Rat :=
  let mant : Int := sign * (digitsToNat (ip ++ fp) : Int)
  let e : Int := ex - (fp.length : Int)
  if 0 ≤ e then ((mant * (10 : Int) ^ e.toNat : Int) : Rat)
  else ((mant : Rat) / (((10 : Int) ^ (-e).toNat : Int) : Rat))

/-- Exponent part after `e`/`E`: optional sign then a nonempty digit run. -/
def parseExponent (cs : List Char) : Option Int :=
  let (esign, cs1) : Int × List Char :=
    match cs with
    | '+' :: r => (1, r)
    | '-' :: r => (-1, r)
    | r => (1, r)
  let ds := cs1.takeWhile Char.isDigit
  let rest := cs1.dropWhile Char.isDigit
  if ds.isEmpty || !rest.isEmpty then none
  else some (esign * (digitsToNat ds : Int))

/-- After the integer digit run: nothing, a fractional part, or an exponent. -/
def parseAfterInt (sign : Int) (ip rest : List Char) : Option Rat :=
  match rest with
  | [] => if ip.isEmpty then none else some (decimalValue sign ip [] 0)
  | '.' :: r2 =>
    let fp := r2.takeWhile Char.isDigit
    let rest2 := r2.dropWhile Char.isDigit
    if ip.isEmpty && fp.isEmpty then none
    else
      match rest2 with
      | [] => some (decimalValue sign ip fp 0)
      | 'e' :: r3 => (parseExponent r3).map (fun ex => decimalValue sign ip fp ex)
      | 'E' :: r3 => (parseExponent r3).map (fun ex => decimalValue sign ip fp ex)
      | _ => none
  | 'e' :: r3 =>
    if ip.isEmpty then none
    else (parseExponent r3).map (fun ex => decimalValue sign ip [] ex)
  | 'E' :: r3 =>
    if ip.isEmpty then none
    else (parseExponent r3).map (fun ex => decimalValue sign ip [] ex)
  | _ => none

/-- Python's `float()` on a string: surrounding whitespace stripped, then an
optionally signed decimal literal with optional fraction and exponent.
(`inf`/`nan` spellings and digit-group underscores are not modelled; no
request in the flows under study uses them.)  `none` models `ValueError`. -/
def pyFloatOfString (s : String) : Option Rat :=
  let cs := trimChars s.toList
  match cs with
  | '+' :: r => parseAfterInt 1 (r.takeWhile Char.isDigit) (r.dropWhile Char.isDigit)
  | '-' :: r => parseAfterInt (-1) (r.takeWhile Char.isDigit) (r.dropWhile Char.isDigit)
  | r => parseAfterInt 1 (r.takeWhile Char.isDigit) (r.dropWhile Char.isDigit)

/-- Python `float(v)` on a JSON value: numbers pass through, booleans become
0/1, strings are parsed, anything else raises (`TypeError`). -/
def pyFloat : JVal → Except Unit Rat
  | JVal.num q => Except.ok q
  | JVal.bool b => Except.ok (if b then 1 else 0)
  | JVal.str s =>
    match pyFloatOfString s with
    | some q => Except.ok q
    | none => Except.error ()
  | JVal.null => Except.error ()

instance {ε α : Type} [DecidableEq ε] [DecidableEq α] : DecidableEq (Except ε α) :=
  fun x y =>
  match x, y with
  | Except.ok a, Except.ok b =>
    if h : a = b then Decidable.isTrue (by rw [h])
    else Decidable.isFalse (by intro he; injection he; exact h (by assumption))
  | Except.error a, Except.error b =>
    if h : a = b then Decidable.isTrue (by rw [h])
    else Decidable.isFalse (by intro he; injection he; exact h (by assumption))
  | Except.ok _, Except.error _ => Decidable.isFalse (by intro he; exact Except.noConfusion he)
  | Except.error _, Except.ok _ => Decidable.isFalse (by intro he; exact Except.noConfusion he)

/-- The coordinate expression of `add_device` / `update_device`:
`float(v) if v not in [None, ''] else None`.  An unparseable non-empty
value propagates the exception. -/
def parseCoord (v : JVal) : Except Unit (Option Rat) :=
  if v = JVal.null ∨ v = JVal.str "" then Except.ok none
  else (pyFloat v).map some

/-- A row of the `users` table (`models.py`, class `User`).  Timestamps are
modelled as abstract ticks; they play no role in the user-level claims. -/
structure User where
  id : Nat
  username : String
  email : Option String
  password_hash : String
  is_admin : Bool
deriving DecidableEq, Repr

/-- A row of the `devices` table (`models.py`, class `Device`). -/
structure Device where
  id : Nat
  name : String
  description : String
  category : String
  location : String
  status : String
  latitude : Option Rat
  longitude : Option Rat
  created_at : Nat
  updated_at : Nat
  user_id : Nat
deriving DecidableEq, Repr

/-- The persistent store: the two tables plus the autoincrement counters
SQLAlchemy uses to assign primary keys on commit. -/
structure DB where
  users : List User
  devices : List Device
  nextUserId : Nat
  nextDeviceId : Nat
deriving DecidableEq, Repr

/-- `User.find_by_username` (`models.py`) for the string identity the routes
obtain from `get_jwt_identity()`. -/
def find_by_username (st : DB) (username : String) : Option User :=
  st.users.find? (fun u => u.username == username)

/-- `User.find_by_username(data['username'])` in `app.py`: the raw JSON value
is compared against the text column, so only an equal string matches. -/
def find_by_username_j (st : DB) (v : JVal) : Option User :=
  st.users.find? (fun u => v == JVal.str u.username)

/-- `User.find_by_email` (`models.py`). -/
def find_by_email (st : DB) (email : String) : Option User :=
  if email = "" then none
  else st.users.find? (fun u => u.email == some email)

/-- `Device.find_by_id` (`models.py`). -/
def find_device_by_id (st : DB) (device_id : Nat) : Option Device :=
  st.devices.find? (fun d => d.id == device_id)

/-- Modelled from the spec: werkzeug's `generate_password_hash` (a salted
one-way hash; the library is not part of src/).  Modelled as an injective
tagging of the password, which suffices for the claims, none of which
depends on the internals of the hash, only on the boolean outcome of the
later check. -/
def generate_password_hash (password : String) : String :=
  "pbkdf2:" ++ password

/-- Modelled from the spec: werkzeug's `check_password_hash` (constant-time
comparison against the stored salted hash; the library is not part of
src/).  Modelled as the matching check for `generate_password_hash`. -/
def check_password_hash (hash password : String) : Bool :=
  hash == "pbkdf2:" ++ password

/-- An HTTP outcome: `ok` carries the 2xx status and the serialized value,
`fail` the error status and `{"message"/"error": ...}` text. -/
inductive ApiResult (α : Type) where
  | ok : Nat → α → ApiResult α
  | fail : Nat → String → ApiResult α
deriving DecidableEq, Repr

/-- `User.save` (`models.py`): add + commit; a uniqueness violation on
username or email makes the commit raise, the method rolls back and
returns falsy.  On success SQLAlchemy assigns the next primary key. -/
def saveUser (st : DB) (username : String) (email : Option String)
    (password_hash : String) : DB × Option User :=
  if st.users.any (fun u => u.username == username) then (st, none)
  else if (match email with
           | some e => st.users.any (fun u => u.email == some e)
           | none => false) then (st, none)
  else
    let u : User := ⟨st.nextUserId, username, email, password_hash, false⟩
    (⟨st.users ++ [u], st.devices, st.nextUserId + 1, st.nextDeviceId⟩, some u)

/-- `POST /api/auth/register` (`app.py`, `register`). -/
def register (st : DB) (data : Req) : DB × ApiResult User :=
  if data.isEmpty || !pyTruthy (getJV data "username")
      || !pyTruthy (getJV data "password") then
    (st, ApiResult.fail 400 "Username and password are required")
  else
    match find_by_username_j st (getJV data "username") with
    | some _ => (st, ApiResult.fail 400 "Username already exists")
    | none =>
      match pyStripJ (getJVD data "email" (JVal.str "")) with
      | Except.error _ => (st, ApiResult.fail 500 "Internal server error")
      | Except.ok email =>
        if email ≠ "" ∧ (find_by_email st email).isSome then
          (st, ApiResult.fail 400 "Email already exists")
        else
          match pyStripJ (getJV data "username"), getJV data "password" with
          | Except.ok uname, JVal.str pw =>
            match saveUser st uname (if email = "" then none else some email)
                (generate_password_hash pw) with
            | (st', some u) => (st', ApiResult.ok 201 u)
            | (st', none) => (st', ApiResult.fail 500 "Failed to create user")
          | _, _ => (st, ApiResult.fail 500 "Internal server error")

/-- `POST /api/auth/login` (`app.py`, `login`).  The success payload is
(username, user id, admin flag); the issued token encodes the username as
subject and is not itself needed by the claims. -/
def login (st : DB) (data : Req) : ApiResult (String × Nat × Bool) :=
  if data.isEmpty || !pyTruthy (getJV data "username")
      || !pyTruthy (getJV data "password") then
    ApiResult.fail 400 "Username and password are required"
  else
    match find_by_username_j st (getJV data "username") with
    | some u =>
      match getJV data "password" with
      | JVal.str pw =>
        if check_password_hash u.password_hash pw then
          ApiResult.ok 200 (u.username, u.id, u.is_admin)
        else ApiResult.fail 401 "Invalid credentials"
      | _ => ApiResult.fail 500 "Internal server error"
    | none => ApiResult.fail 401 "Invalid credentials"

/-- The four `data.get(...,'').strip()` lines of `add_device`
(`routes.py`): name, description, category, location in source order;
the first non-string value raises. -/
def createStrings (data : Req) : Except Unit (String × String × String × String) := do
  let name ← pyStripJ (getJVD data "name" (JVal.str ""))
  let description ← pyStripJ (getJVD data "description" (JVal.str ""))
  let category ← pyStripJ (getJVD data "category" (JVal.str ""))
  let location ← pyStripJ (getJVD data "location" (JVal.str ""))
  Except.ok (name, description, category, location)

/-- The status value `add_device` works with: `data.get('status', 'lost')`. -/
def createStatusVal (data : Req) : JVal :=
  getJVD data "status" (JVal.str "lost")

/-- String content of a JSON value (total helper; only applied after the
handler has checked the value is one of two string literals). -/
def jvalStr : JVal → String
  | JVal.str s => s
  | _ => ""

/-- `POST /api/devices` (`routes.py`, `add_device`, the live copy).
Control flow in source order: current-user lookup, name presence check,
the four strips, the two coordinate conversions, the status check, then
construction and commit.  `now` is the `datetime.utcnow()` tick. -/
def add_device (st : DB) (identity : String) (data : Req) (now : Nat) :
    DB × ApiResult Device :=
  match find_by_username st identity with
  | none => (st, ApiResult.fail 404 "User not found")
  | some cu =>
    if data.isEmpty || !pyTruthy (getJV data "name") then
      (st, ApiResult.fail 400 "Device name is required")
    else
      match createStrings data with
      | Except.error _ =>
        (st, ApiResult.fail 500 "Failed to create device due to an internal error.")
      | Except.ok (name, description, category, location) =>
        match parseCoord (getJV data "latitude"), parseCoord (getJV data "longitude") with
        | Except.ok latitude, Except.ok longitude =>
          if createStatusVal data ≠ JVal.str "lost"
              ∧ createStatusVal data ≠ JVal.str "found" then
            (st, ApiResult.fail 400 "Status must be 'lost' or 'found'")
          else
            (⟨st.users,
              st.devices
                ++ [⟨st.nextDeviceId, name, description, category, location,
                     jvalStr (createStatusVal data), latitude, longitude, now, now, cu.id⟩],
              st.nextUserId, st.nextDeviceId + 1⟩,
             ApiResult.ok 201
               ⟨st.nextDeviceId, name, description, category, location,
                jvalStr (createStatusVal data), latitude, longitude, now, now, cu.id⟩)
        | _, _ =>
          (st, ApiResult.fail 500 "Failed to create device due to an internal error.")

/-- `if 'name' in data: device.name = data['name'].strip()` (`update_device`). -/
def updName (data : Req) (d : Device) : Except Unit Device :=
  match reqFind data "name" with
  | none => Except.ok d
  | some v => (pyStripJ v).map (fun s => { d with name := s })

/-- `if 'description' in data: ...` (`update_device`). -/
def updDescription (data : Req) (d : Device) : Except Unit Device :=
  match reqFind data "description" with
  | none => Except.ok d
  | some v => (pyStripJ v).map (fun s => { d with description := s })

/-- `if 'category' in data: ...` (`update_device`). -/
def updCategory (data : Req) (d : Device) : Except Unit Device :=
  match reqFind data "category" with
  | none => Except.ok d
  | some v => (pyStripJ v).map (fun s => { d with category := s })

/-- `if 'location' in data: ...` (`update_device`). -/
def updLocation (data : Req) (d : Device) : Except Unit Device :=
  match reqFind data "location" with
  | none => Except.ok d
  | some v => (pyStripJ v).map (fun s => { d with location := s })

/-- `if 'status' in data and data['status'] in ['lost', 'found']:
device.status = data['status']` (`update_device`): any other supplied
status is silently ignored. -/
def updStatus (data : Req) (d : Device) : Device :=
  match reqFind data "status" with
  | some (JVal.str "lost") => { d with status := "lost" }
  | some (JVal.str "found") => { d with status := "found" }
  | _ => d

/-- `if 'latitude' in data: device.latitude = float(...) if ... else None`. -/
def updLatitude (data : Req) (d : Device) : Except Unit Device :=
  match reqFind data "latitude" with
  | none => Except.ok d
  | some v => (parseCoord v).map (fun r => { d with latitude := r })

/-- `if 'longitude' in data: ...`. -/
def updLongitude (data : Req) (d : Device) : Except Unit Device :=
  match reqFind data "longitude" with
  | none => Except.ok d
  | some v => (parseCoord v).map (fun r => { d with longitude := r })

/-- The four string-field mutations of `update_device` in source order. -/
def updStrings (data : Req) (d : Device) : Except Unit Device := do
  let d1 ← updName data d
  let d2 ← updDescription data d1
  let d3 ← updCategory data d2
  updLocation data d3

/-- The field-mutation body of `update_device` in source order, ending with
`device.updated_at = datetime.utcnow()`.  An exception anywhere leaves the
committed store unchanged (the handler rolls back). -/
def applyUpdate (data : Req) (d : Device) (now : Nat) : Except Unit Device := do
  let d4 ← updStrings data d
  let d5 := updStatus data d4
  let d6 ← updLatitude data d5
  let d7 ← updLongitude data d6
  Except.ok { d7 with updated_at := now }

/-- `PUT /api/devices/<id>` (`routes.py`, `update_device`, the live copy). -/
def update_device (st : DB) (identity : String) (device_id : Nat) (data : Req)
    (now : Nat) : DB × ApiResult Device :=
  match find_by_username st identity with
  | none => (st, ApiResult.fail 404 "User not found")
  | some cu =>
    match find_device_by_id st device_id with
    | none => (st, ApiResult.fail 404 "Device not found")
    | some d =>
      if d.user_id ≠ cu.id then (st, ApiResult.fail 403 "Unauthorized")
      else
        match applyUpdate data d now with
        | Except.error _ => (st, ApiResult.fail 500 "Failed to update device")
        | Except.ok d' =>
          (⟨st.users, st.devices.map (fun x => if x.id = device_id then d' else x),
            st.nextUserId, st.nextDeviceId⟩,
           ApiResult.ok 200 d')

/-- Lower-casing of the ASCII range, as SQLite's default `LIKE` applies it. -/
def lowerAscii (c : Char) : Char :=
  if 'A' ≤ c && c ≤ 'Z' then Char.ofNat (c.toNat + 32) else c

/-- SQLite `LIKE` pattern matching (`%` any run, `_` any one character,
ASCII-case-insensitive, no escape character — exactly the operator
`Device.search_devices` applies).  The fuel argument only bounds the
recursion; every call consumes pattern or text, so
`pattern.length + text.length + 1` is always enough. -/
def likeMatchFuel : Nat → List Char → List Char → Bool
  | 0, _, _ => false
  | _ + 1, [], [] => true
  | fuel + 1, '%' :: ps, [] => likeMatchFuel fuel ps []
  | _ + 1, _ :: _, [] => false
  | _ + 1, [], _ :: _ => false
  | fuel + 1, '%' :: ps, c :: cs =>
    likeMatchFuel fuel ps (c :: cs) || likeMatchFuel fuel ('%' :: ps) cs
  | fuel + 1, '_' :: ps, _ :: cs => likeMatchFuel fuel ps cs
  | fuel + 1, p :: ps, c :: cs =>
    (lowerAscii p == lowerAscii c) && likeMatchFuel fuel ps cs

/-- `column LIKE pattern`. -/
def sqlLike (column : String) (pattern : List Char) : Bool :=
  likeMatchFuel (pattern.length + column.length + 1) pattern column.toList

/-- `search = f"%\x7bquery\x7d%"` (`models.py`, `Device.search_devices`):
the query is interpolated into the pattern unescaped. -/
def likePattern (query : String) : List Char :=
  '%' :: (query.toList ++ ['%'])

/-- The `or_` of the four `LIKE` filters of `Device.search_devices`,
in source order: name, description, location, category. -/
def deviceLikeMatch (query : String) (d : Device) : Bool :=
  sqlLike d.name (likePattern query) || sqlLike d.description (likePattern query)
    || sqlLike d.location (likePattern query) || sqlLike d.category (likePattern query)

/-- `ORDER BY created_at DESC`. -/
def createdDesc (a b : Device) : Prop :=
  b.created_at ≤ a.created_at

instance : DecidableRel createdDesc :=
  fun a b => Nat.decLe b.created_at a.created_at

instance : IsTotal Device createdDesc :=
  ⟨fun a b => Nat.le_total b.created_at a.created_at⟩

instance : IsTrans Device createdDesc :=
  ⟨fun _ _ _ h1 h2 => Nat.le_trans h2 h1⟩

/-- A listing ordered by creation time descending. -/
def orderByCreatedDesc (l : List Device) : List Device :=
  List.insertionSort createdDesc l

/-- `Device.search_devices(query, user_id)` (`models.py`): the four `LIKE`
filters, then — only when `user_id` is truthy — the owner filter, ordered
by creation time descending. -/
def search_devices (st : DB) (query : String) (user_id : Nat) : List Device :=
  orderByCreatedDesc
    (if user_id ≠ 0 then
      (st.devices.filter (fun d => deviceLikeMatch query d)).filter
        (fun d => d.user_id == user_id)
    else st.devices.filter (fun d => deviceLikeMatch query d))

/-- `GET /api/devices/search` (`routes.py`, `search_devices` route — the
handler occurs only inside the module's leading quoted-out block; embedded
from the exact lines the claims cite): an empty `q` short-circuits to an
empty 200 before the user is even resolved. -/
def search_route (st : DB) (identity : String) (q : String) :
    ApiResult (List Device) :=
  if q = "" then ApiResult.ok 200 []
  else
    match find_by_username st identity with
    | none => ApiResult.fail 404 "User not found"
    | some cu => ApiResult.ok 200 (search_devices st q cu.id)

/-- The `{total, lost, found}` payload of the stats endpoint. -/
structure DeviceStats where
  total : Nat
  lost : Nat
  found : Nat
deriving DecidableEq, Repr

/-- `Device.get_user_stats` (`models.py`): one aggregation row — a count and
two conditional sums over the owner's devices, each coalesced to 0 when the
sum is NULL — guarded by a `try/except` that answers all-zero when the
session query raises (`dbRaise` models that exception). -/
def get_user_stats (devices : List Device) (user_id : Nat) (dbRaise : Bool) :
    DeviceStats :=
  if dbRaise then ⟨0, 0, 0⟩
  else
    let mine := devices.filter (fun d => d.user_id == user_id)
    ⟨mine.length,
     (mine.filter (fun d => d.status == "lost")).length,
     (mine.filter (fun d => d.status == "found")).length⟩

/-- `GET /api/devices/stats` (`routes.py`, `get_device_stats`, the live
copy). -/
def stats_route (st : DB) (identity : String) (dbRaise : Bool) :
    ApiResult DeviceStats :=
  match find_by_username st identity with
  | none => ApiResult.fail 404 "User not found"
  | some cu => ApiResult.ok 200 (get_user_stats st.devices cu.id dbRaise)

/-- ASCII-case-insensitive character comparison for the spec-side predicate. -/
def charLowerEq (a b : Char) : Bool :=
  lowerAscii a == lowerAscii b

/-- Does `needle` occur right at the head of `hay` (case-insensitively)? -/
def occursAtHead : List Char → List Char → Bool
  | [], _ => true
  | _ :: _, [] => false
  | a :: an, b :: bn => charLowerEq a b && occursAtHead an bn

/-- Does `needle` occur anywhere inside the text (case-insensitively)? -/
def occursIn (needle : List Char) : List Char → Bool
  | [] => needle.isEmpty
  | c :: t => occursAtHead needle (c :: t) || occursIn needle t

/-- `hay` contains `needle` as an (ASCII-case-insensitive) substring. -/
def containsSub (hay needle : String) : Bool :=
  occursIn needle.toList hay.toList

/-- Spec-side search predicate, following the spec's words for Search
("devices ... whose name, description, location, or category contain the
query as a case-sensitive-or-insensitive substring"); stated with the
case-insensitive choice, the one SQLite's `LIKE` makes.  Written from the
spec, independently of the implementation, for comparison in claim C6. -/
def specSearchMatches (query : String) (d : Device) : Bool :=
  containsSub d.name query || containsSub d.description query
    || containsSub d.location query || containsSub d.category query

/-- The C1 invariant: every stored device's status is `lost` or `found`. -/
def statusInv (st : DB) : Prop :=
  ∀ d ∈ st.devices, d.status = "lost" ∨ d.status = "found"

/-- Test fixture: one registered user. -/
def alice : User :=
  ⟨1, "alice", none, generate_password_hash "pw", false⟩

/-- Test fixture: the store right after alice registered. -/
def st0 : DB :=
  ⟨[alice], [], 2, 1⟩

/-- Test fixture: a device of alice's. -/
def devAB : Device :=
  ⟨1, "ab", "", "", "", "lost", none, none, 1, 1, 1⟩

/-- Test fixture: a device owned by another user (id 7). -/
def devOther : Device :=
  ⟨2, "cd", "", "", "", "found", none, none, 2, 2, 7⟩

/-- Test fixture: alice's store holding her device and a foreign one. -/
def stW : DB :=
  ⟨[alice], [devAB, devOther], 2, 3⟩

/-- Claim C2: an Update naming a nonexistent device fails with 404 ("Device
not found"); an Update naming a device whose owner is not the caller fails
with 403 ("Unauthorized"); in both cases the returned store is the input
store, so every stored field of every device is unchanged — both checks
happen before any mutation is attempted. -/
theorem update_missing_or_foreign_device_rejected_unchanged
    (st : DB) (identity : String) (device_id : Nat) (data : Req) (now : Nat)
    (cu : User) (hu : find_by_username st identity = some cu) :
    (find_device_by_id st device_id = none →
      update_device st identity device_id data now
        = (st, ApiResult.fail 404 "Device not found")) ∧
    (∀ d0, find_device_by_id st device_id = some d0 → d0.user_id ≠ cu.id →
      update_device st identity device_id data now
        = (st, ApiResult.fail 403 "Unauthorized")) := by
  constructor
  · intro hd
    simp [update_device, hu, hd]
  · intro d0 hd hown
    simp [update_device, hu, hd, hown]

/-- Witness for C2 at a concrete store: device 5 does not exist; device 2
exists but belongs to user 7, not to alice. -/
theorem update_missing_or_foreign_device_rejected_unchanged_witness :
    update_device stW "alice" 5 [] 9 = (stW, ApiResult.fail 404 "Device not found") ∧
    update_device stW "alice" 2 [] 9 = (stW, ApiResult.fail 403 "Unauthorized") :=
  ⟨(update_missing_or_foreign_device_rejected_unchanged stW "alice" 5 [] 9 alice
      (by decide)).1 (by decide),
   (update_missing_or_foreign_device_rejected_unchanged stW "alice" 2 [] 9 alice
      (by decide)).2 devOther (by decide) (by decide)⟩

/-- Claim C5: a login attempt naming an existing user with a password that
fails the hash check and a login attempt naming a username that matches no
user produce the identical result: HTTP 401 with the generic message
"Invalid credentials", so the two failure causes are indistinguishable. -/
theorem login_wrong_password_equals_unknown_user
    (st : DB) (data1 data2 : Req) (u : User) (p1 : String)
    (h1u : pyTruthy (getJV data1 "username") = true)
    (h1p : pyTruthy (getJV data1 "password") = true)
    (h2u : pyTruthy (getJV data2 "username") = true)
    (h2p : pyTruthy (getJV data2 "password") = true)
    (hfind1 : find_by_username_j st (getJV data1 "username") = some u)
    (hp1 : getJV data1 "password" = JVal.str p1)
    (hwrong : check_password_hash u.password_hash p1 = false)
    (hfind2 : find_by_username_j st (getJV data2 "username") = none) :
    login st data1 = ApiResult.fail 401 "Invalid credentials" ∧
    login st data2 = ApiResult.fail 401 "Invalid credentials" ∧
    login st data1 = login st data2 := by
  have hne1 : data1.isEmpty = false := by
    cases data1 with
    | nil => simp [getJV, reqFind, pyTruthy] at h1u
    | cons a l => rfl
  have hne2 : data2.isEmpty = false := by
    cases data2 with
    | nil => simp [getJV, reqFind, pyTruthy] at h2u
    | cons a l => rfl
  have hp1t : pyTruthy (JVal.str p1) = true := by rw [← hp1]; exact h1p
  have e1 : login st data1 = ApiResult.fail 401 "Invalid credentials" := by
    simp [login, hne1, h1u, h1p, hp1t, hfind1, hp1, hwrong]
  have e2 : login st data2 = ApiResult.fail 401 "Invalid credentials" := by
    simp [login, hne2, h2u, h2p, hfind2]
  exact ⟨e1, e2, by rw [e1, e2]⟩

/-- Witness for C5: alice exists with password "pw"; logging in as alice
with "wrong" and as the unknown "nosuch" with any password coincide. -/
theorem login_wrong_password_equals_unknown_user_witness :
    login st0 [("username", JVal.str "alice"), ("password", JVal.str "wrong")]
      = ApiResult.fail 401 "Invalid credentials" ∧
    login st0 [("username", JVal.str "nosuch"), ("password", JVal.str "pw")]
      = ApiResult.fail 401 "Invalid credentials" :=
  ⟨(login_wrong_password_equals_unknown_user st0
      [("username", JVal.str "alice"), ("password", JVal.str "wrong")]
      [("username", JVal.str "nosuch"), ("password", JVal.str "pw")]
      alice "wrong" (by decide) (by decide) (by decide) (by decide)
      (by decide) (by decide) (by decide) (by decide)).1,
   (login_wrong_password_equals_unknown_user st0
      [("username", JVal.str "alice"), ("password", JVal.str "wrong")]
      [("username", JVal.str "nosuch"), ("password", JVal.str "pw")]
      alice "wrong" (by decide) (by decide) (by decide) (by decide)
      (by decide) (by decide) (by decide) (by decide)).2.1⟩

/-- Claim C7: the stats aggregation returns exactly the three counts — the
owner's device total and the counts with status "lost" and "found" — and
returns `{total := 0, lost := 0, found := 0}` rather than an error both
when the owner has no devices and when the aggregation query raises
(`dbRaise`); the route serves the result with HTTP 200 for any resolved
owner. -/
theorem stats_zero_safe_counts
    (devices : List Device) (user_id : Nat) (dbRaise : Bool) :
    get_user_stats devices user_id false
      = ⟨devices.countP (fun d => d.user_id == user_id),
         devices.countP (fun d => d.status == "lost" && d.user_id == user_id),
         devices.countP (fun d => d.status == "found" && d.user_id == user_id)⟩ ∧
    (devices.filter (fun d => d.user_id == user_id) = [] →
      get_user_stats devices user_id dbRaise = ⟨0, 0, 0⟩) ∧
    get_user_stats devices user_id true = ⟨0, 0, 0⟩ ∧
    (∀ st identity cu, find_by_username st identity = some cu →
      stats_route st identity dbRaise
        = ApiResult.ok 200 (get_user_stats st.devices cu.id dbRaise)) := by
  refine ⟨?_, ?_, rfl, ?_⟩
  · simp [get_user_stats, List.countP_eq_length_filter, List.filter_filter]
  · intro h
    cases dbRaise with
    | true => rfl
    | false => simp [get_user_stats, h]
  · intro st identity cu hu
    simp [stats_route, hu]

/-- Witness for C7: the empty store and alice's fresh store both give the
all-zero stats through the route. -/
theorem stats_zero_safe_counts_witness :
    get_user_stats [] 1 false = ⟨0, 0, 0⟩ ∧
    stats_route st0 "alice" false
      = ApiResult.ok 200 (get_user_stats st0.devices alice.id false) :=
  ⟨(stats_zero_safe_counts [] 1 false).2.1 (by decide),
   (stats_zero_safe_counts st0.devices 1 false).2.2.2 st0 "alice" alice (by decide)⟩

/-- Inversion of a successful Create: the guards it passed and the exact
device row it persisted. -/
theorem add_device_ok_inv
    (st : DB) (identity : String) (data : Req) (now : Nat) (st' : DB) (dev : Device)
    (h : add_device st identity data now = (st', ApiResult.ok 201 dev)) :
    ∃ cu name description category location latitude longitude,
      find_by_username st identity = some cu ∧
      (data.isEmpty || !pyTruthy (getJV data "name")) = false ∧
      createStrings data = Except.ok (name, description, category, location) ∧
      parseCoord (getJV data "latitude") = Except.ok latitude ∧
      parseCoord (getJV data "longitude") = Except.ok longitude ∧
      (createStatusVal data = JVal.str "lost" ∨ createStatusVal data = JVal.str "found") ∧
      dev = ⟨st.nextDeviceId, name, description, category, location,
             jvalStr (createStatusVal data), latitude, longitude, now, now, cu.id⟩ ∧
      st' = ⟨st.users, st.devices ++ [dev], st.nextUserId, st.nextDeviceId + 1⟩ := by
  unfold add_device at h
  split at h
  · simp at h
  next cu hfu =>
    split at h
    next hguard => simp at h
    next hguard =>
      split at h
      · simp at h
      next name description category location hcs =>
        split at h
        next latitude longitude hla hlo =>
          split at h
          next hstat => simp at h
          next hstat =>
            simp only [Prod.mk.injEq, ApiResult.ok.injEq] at h
            obtain ⟨hst, -, hdev⟩ := h
            refine ⟨cu, name, description, category, location, latitude, longitude,
              hfu, by simpa using hguard, hcs, hla, hlo, ?_, hdev.symm, ?_⟩
            · rcases Decidable.not_and_iff_or_not.mp hstat with h1 | h1 <;>
                [exact Or.inl (Decidable.not_not.mp h1);
                 exact Or.inr (Decidable.not_not.mp h1)]
            · rw [← hst, hdev]
        next h1 h2 hne => simp at h

/-- Request fixture for C3: latitude supplied as the empty string, longitude
supplied as the string "0". -/
def reqLatEmptyLonZero : Req :=
  [("name", JVal.str "Phone"), ("latitude", JVal.str ""), ("longitude", JVal.str "0")]

/-- The device that Create persists for `reqLatEmptyLonZero` at tick 5. -/
def devPhone : Device :=
  ⟨1, "Phone", "", "", "", "lost", none, some 0, 5, 5, 1⟩

/-- Claim C3: in Create, a latitude/longitude that is absent (`getJV` then
yields `null`), null, or the empty string is stored as null — and only
those values are; any other value is stored as the result of the float
conversion.  In particular the string "0" parses to the number 0, so the
spec's example request stores latitude null and longitude 0.0. -/
theorem create_coordinate_empty_vs_zero :
    (∀ v, parseCoord v = Except.ok none ↔ (v = JVal.null ∨ v = JVal.str "")) ∧
    (∀ v q, parseCoord v = Except.ok (some q) → pyFloat v = Except.ok q) ∧
    (∀ st identity data now st' dev,
      add_device st identity data now = (st', ApiResult.ok 201 dev) →
      parseCoord (getJV data "latitude") = Except.ok dev.latitude ∧
      parseCoord (getJV data "longitude") = Except.ok dev.longitude) ∧
    (add_device st0 "alice" reqLatEmptyLonZero 5).2 = ApiResult.ok 201 devPhone := by
  refine ⟨?_, ?_, ?_, by decide⟩
  · intro v
    constructor
    · intro h
      by_cases hc : v = JVal.null ∨ v = JVal.str ""
      · exact hc
      · exfalso
        rw [parseCoord, if_neg hc] at h
        cases hpf : pyFloat v <;> rw [hpf] at h <;> simp [Except.map] at h
    · intro hc
      rw [parseCoord, if_pos hc]
  · intro v q h
    by_cases hc : v = JVal.null ∨ v = JVal.str ""
    · rw [parseCoord, if_pos hc] at h
      simp at h
    · rw [parseCoord, if_neg hc] at h
      cases hpf : pyFloat v <;> rw [hpf] at h <;> simp [Except.map] at h
      rw [h]
  · intro st identity data now st' dev h
    obtain ⟨cu, name, description, category, location, latitude, longitude,
      -, -, -, hla, hlo, -, hdev, -⟩ := add_device_ok_inv st identity data now st' dev h
    subst hdev
    exact ⟨hla, hlo⟩

/-- Witness for C3: the "0" string parses to the number 0, and on the
concrete request the persisted device carries latitude null and
longitude 0. -/
theorem create_coordinate_empty_vs_zero_witness :
    pyFloat (JVal.str "0") = Except.ok 0 ∧
    parseCoord (getJV reqLatEmptyLonZero "latitude") = Except.ok devPhone.latitude ∧
    parseCoord (getJV reqLatEmptyLonZero "longitude") = Except.ok devPhone.longitude :=
  ⟨create_coordinate_empty_vs_zero.2.1 (JVal.str "0") 0 (by decide),
   (create_coordinate_empty_vs_zero.2.2.1 st0 "alice" reqLatEmptyLonZero 5
      ⟨[alice], [devPhone], 2, 2⟩ devPhone (by decide)).1,
   (create_coordinate_empty_vs_zero.2.2.1 st0 "alice" reqLatEmptyLonZero 5
      ⟨[alice], [devPhone], 2, 2⟩ devPhone (by decide)).2⟩

/-- A `strip()` call only succeeds on a string value, and returns its trim. -/
theorem pyStripJ_ok (v : JVal) (s' : String) (h : pyStripJ v = Except.ok s') :
    ∃ s, v = JVal.str s ∧ s' = pyStrip s := by
  cases v <;> simp [pyStripJ] at h
  exact ⟨_, rfl, h.symm⟩

/-- The first component of a successful `createStrings` run is the strip of
the supplied name value. -/
theorem createStrings_ok_name (data : Req) (n de ca lo : String)
    (h : createStrings data = Except.ok (n, de, ca, lo)) :
    pyStripJ (getJVD data "name" (JVal.str "")) = Except.ok n := by
  unfold createStrings at h
  cases h1 : pyStripJ (getJVD data "name" (JVal.str "")) <;> rw [h1] at h <;>
    simp [Except.instMonad, Except.bind] at h
  cases h2 : pyStripJ (getJVD data "description" (JVal.str "")) <;> rw [h2] at h <;>
    simp [Except.instMonad, Except.bind] at h
  cases h3 : pyStripJ (getJVD data "category" (JVal.str "")) <;> rw [h3] at h <;>
    simp [Except.instMonad, Except.bind] at h
  cases h4 : pyStripJ (getJVD data "location" (JVal.str "")) <;> rw [h4] at h <;>
    simp [Except.instMonad, Except.bind] at h
  rw [h.1]

/-- Counterexample to C4 as stated: the supplied name " " (whitespace only)
is truthy, so the `not data.get('name')` guard passes, and Create persists
a device whose stored (trimmed) name is the empty string — no
ValidationError is raised. -/
theorem create_whitespace_name_stores_empty :
    add_device st0 "alice" [("name", JVal.str " ")] 7
      = (⟨[alice], [⟨1, "", "", "", "", "lost", none, none, 7, 7, 1⟩], 2, 2⟩,
         ApiResult.ok 201 ⟨1, "", "", "", "", "lost", none, none, 7, 7, 1⟩) := by
  decide

/-- Claim C4 (amended): Create fails with ValidationError 400 ("Device name
is required") exactly when the supplied name is missing, null, or otherwise
falsy — in particular when it is the empty string; and every successfully
persisted device stores the trimmed supplied name, which can still be the
empty string when the supplied name is non-empty but all whitespace. -/
theorem create_name_required_and_trimmed :
    (∀ st identity data now cu,
      find_by_username st identity = some cu →
      (data.isEmpty || !pyTruthy (getJV data "name")) = true →
      add_device st identity data now
        = (st, ApiResult.fail 400 "Device name is required")) ∧
    (∀ st identity data now st' dev,
      add_device st identity data now = (st', ApiResult.ok 201 dev) →
      ∃ s, getJVD data "name" (JVal.str "") = JVal.str s ∧ dev.name = pyStrip s) := by
  constructor
  · intro st identity data now cu hu hguard
    simp [add_device, hu, hguard]
  · intro st identity data now st' dev h
    obtain ⟨cu, name, description, category, location, latitude, longitude,
      -, -, hcs, -, -, -, hdev, -⟩ := add_device_ok_inv st identity data now st' dev h
    have hn := createStrings_ok_name data name description category location hcs
    obtain ⟨s, hs, hsp⟩ := pyStripJ_ok _ _ hn
    subst hdev
    exact ⟨s, hs, hsp⟩

/-- Witness for C4 (amended): an empty name is rejected with 400; the
whitespace name " " is persisted trimmed to "". -/
theorem create_name_required_and_trimmed_witness :
    add_device st0 "alice" [("name", JVal.str "")] 7
      = (st0, ApiResult.fail 400 "Device name is required") ∧
    (∃ s, getJVD [("name", JVal.str " ")] "name" (JVal.str "") = JVal.str s ∧
      (⟨1, "", "", "", "", "lost", none, none, 7, 7, 1⟩ : Device).name = pyStrip s) :=
  ⟨create_name_required_and_trimmed.1 st0 "alice" [("name", JVal.str "")] 7 alice
     (by decide) (by decide),
   create_name_required_and_trimmed.2 st0 "alice" [("name", JVal.str " ")] 7
     ⟨[alice], [⟨1, "", "", "", "", "lost", none, none, 7, 7, 1⟩], 2, 2⟩
     ⟨1, "", "", "", "", "lost", none, none, 7, 7, 1⟩ (by decide)⟩

/-- A supplied latitude that is a non-empty unparseable string makes the
latitude mutation step raise. -/
theorem updLatitude_error (data : Req) (d : Device) (s : String)
    (hk : reqFind data "latitude" = some (JVal.str s)) (hs : s ≠ "")
    (hp : pyFloatOfString s = none) :
    updLatitude data d = Except.error () := by
  rw [updLatitude, hk]
  simp [parseCoord, pyFloat, hp, hs, Except.map]

/-- A supplied longitude that is a non-empty unparseable string makes the
longitude mutation step raise. -/
theorem updLongitude_error (data : Req) (d : Device) (s : String)
    (hk : reqFind data "longitude" = some (JVal.str s)) (hs : s ≠ "")
    (hp : pyFloatOfString s = none) :
    updLongitude data d = Except.error () := by
  rw [updLongitude, hk]
  simp [parseCoord, pyFloat, hp, hs, Except.map]

/-- Claim C10: a Create or owner-Update whose latitude or longitude is a
non-empty string that does not parse as a float does not answer
ValidationError 400: the float conversion raises, the handler rolls back —
the returned store is the input store — and the caller gets InternalError
500 with the generic message.  Four cases: Create with a bad latitude,
Create with a bad longitude (its latitude converting fine), Update with a
bad latitude, and Update with a bad longitude (its latitude step
succeeding). -/
theorem unparseable_coordinate_internal_500 :
    (∀ st identity data now cu flds s,
      find_by_username st identity = some cu →
      (data.isEmpty || !pyTruthy (getJV data "name")) = false →
      createStrings data = Except.ok flds →
      getJV data "latitude" = JVal.str s → s ≠ "" → pyFloatOfString s = none →
      add_device st identity data now
        = (st, ApiResult.fail 500 "Failed to create device due to an internal error.")) ∧
    (∀ st identity data now cu flds lat s,
      find_by_username st identity = some cu →
      (data.isEmpty || !pyTruthy (getJV data "name")) = false →
      createStrings data = Except.ok flds →
      parseCoord (getJV data "latitude") = Except.ok lat →
      getJV data "longitude" = JVal.str s → s ≠ "" → pyFloatOfString s = none →
      add_device st identity data now
        = (st, ApiResult.fail 500 "Failed to create device due to an internal error.")) ∧
    (∀ st identity device_id data now cu d0 d4 s,
      find_by_username st identity = some cu →
      find_device_by_id st device_id = some d0 →
      d0.user_id = cu.id →
      updStrings data d0 = Except.ok d4 →
      reqFind data "latitude" = some (JVal.str s) → s ≠ "" → pyFloatOfString s = none →
      update_device st identity device_id data now
        = (st, ApiResult.fail 500 "Failed to update device")) ∧
    (∀ st identity device_id data now cu d0 d4 d6 s,
      find_by_username st identity = some cu →
      find_device_by_id st device_id = some d0 →
      d0.user_id = cu.id →
      updStrings data d0 = Except.ok d4 →
      updLatitude data (updStatus data d4) = Except.ok d6 →
      reqFind data "longitude" = some (JVal.str s) → s ≠ "" → pyFloatOfString s = none →
      update_device st identity device_id data now
        = (st, ApiResult.fail 500 "Failed to update device")) := by
  refine ⟨?_, ?_, ?_, ?_⟩
  · intro st identity data now cu flds s hu hguard hcs hk hs hp
    obtain ⟨n, de, ca, lo⟩ := flds
    have hlat : parseCoord (getJV data "latitude") = Except.error () := by
      rw [hk]
      simp [parseCoord, pyFloat, hp, hs, Except.map]
    cases hlo : parseCoord (getJV data "longitude") <;>
      simp [add_device, hu, hguard, hcs, hlat, hlo]
  · intro st identity data now cu flds lat s hu hguard hcs hla hk hs hp
    obtain ⟨n, de, ca, lo⟩ := flds
    have hlon : parseCoord (getJV data "longitude") = Except.error () := by
      rw [hk]
      simp [parseCoord, pyFloat, hp, hs, Except.map]
    simp [add_device, hu, hguard, hcs, hla, hlon]
  · intro st identity device_id data now cu d0 d4 s hu hd hown hstr hk hs hp
    have hlat : updLatitude data (updStatus data d4) = Except.error () :=
      updLatitude_error data _ s hk hs hp
    have happ : applyUpdate data d0 now = Except.error () := by
      simp only [applyUpdate]
      rw [hstr]
      simp [Except.instMonad, Except.bind, hlat]
    simp [update_device, hu, hd, hown, happ]
  · intro st identity device_id data now cu d0 d4 d6 s hu hd hown hstr hlat6 hk hs hp
    have hlon : updLongitude data d6 = Except.error () :=
      updLongitude_error data d6 s hk hs hp
    have happ : applyUpdate data d0 now = Except.error () := by
      simp only [applyUpdate]
      rw [hstr]
      simp [Except.instMonad, Except.bind, hlat6, hlon]
    simp [update_device, hu, hd, hown, happ]

/-- Witness for C10: latitude "abc" and longitude "xyz", each on a Create
and on an owner Update. -/
theorem unparseable_coordinate_internal_500_witness :
    add_device st0 "alice" [("name", JVal.str "Phone"), ("latitude", JVal.str "abc")] 5
      = (st0, ApiResult.fail 500 "Failed to create device due to an internal error.") ∧
    add_device st0 "alice" [("name", JVal.str "Phone"), ("longitude", JVal.str "xyz")] 5
      = (st0, ApiResult.fail 500 "Failed to create device due to an internal error.") ∧
    update_device stW "alice" 1 [("latitude", JVal.str "abc")] 9
      = (stW, ApiResult.fail 500 "Failed to update device") ∧
    update_device stW "alice" 1 [("longitude", JVal.str "xyz")] 9
      = (stW, ApiResult.fail 500 "Failed to update device") :=
  ⟨unparseable_coordinate_internal_500.1 st0 "alice"
     [("name", JVal.str "Phone"), ("latitude", JVal.str "abc")] 5 alice
     ("Phone", "", "", "") "abc" (by decide) (by decide) (by decide) (by decide)
     (by decide) (by decide),
   unparseable_coordinate_internal_500.2.1 st0 "alice"
     [("name", JVal.str "Phone"), ("longitude", JVal.str "xyz")] 5 alice
     ("Phone", "", "", "") none "xyz" (by decide) (by decide) (by decide)
     (by decide) (by decide) (by decide) (by decide),
   unparseable_coordinate_internal_500.2.2.1 stW "alice" 1
     [("latitude", JVal.str "abc")] 9 alice devAB devAB "abc"
     (by decide) (by decide) (by decide) (by decide) (by decide) (by decide)
     (by decide),
   unparseable_coordinate_internal_500.2.2.2 stW "alice" 1
     [("longitude", JVal.str "xyz")] 9 alice devAB devAB devAB "xyz"
     (by decide) (by decide) (by decide) (by decide) (by decide) (by decide)
     (by decide) (by decide)⟩

/-- A request whose key holds a string value is not the empty body. -/
theorem getJV_str_nonempty (data : Req) (k s : String)
    (h : getJV data k = JVal.str s) : data.isEmpty = false := by
  cases data with
  | nil => simp [getJV, reqFind] at h
  | cons a l => rfl

/-- Inversion of a successful `User.save`: the row appended, with the next
primary key. -/
theorem saveUser_some (st : DB) (username : String) (email : Option String)
    (ph : String) (st' : DB) (u : User)
    (h : saveUser st username email ph = (st', some u)) :
    u.username = username ∧ st'.users = st.users ++ [u] := by
  unfold saveUser at h
  split at h
  · simp at h
  split at h
  · simp at h
  · simp only [Prod.mk.injEq, Option.some.injEq] at h
    obtain ⟨hst, hu⟩ := h
    subst hu
    exact ⟨rfl, by rw [← hst]⟩

/-- `User.save` hits the username uniqueness violation and persists
nothing. -/
theorem saveUser_existing (st : DB) (username : String) (email : Option String)
    (ph : String) (hex : st.users.any (fun x => x.username == username) = true) :
    saveUser st username email ph = (st, none) := by
  unfold saveUser
  rw [if_pos hex]

/-- Inversion of a successful Register: the guards it passed and the row it
stored. -/
theorem register_ok_inv (st : DB) (data : Req) (st1 : DB) (u : User)
    (h : register st data = (st1, ApiResult.ok 201 u)) :
    ∃ uname pw,
      pyTruthy (getJV data "username") = true ∧
      find_by_username_j st (getJV data "username") = none ∧
      pyStripJ (getJV data "username") = Except.ok uname ∧
      getJV data "password" = JVal.str pw ∧
      u.username = uname ∧
      st1.users = st.users ++ [u] := by
  unfold register at h
  split at h
  next hguard => simp at h
  next hguard =>
    have htr : pyTruthy (getJV data "username") = true := by
      rcases Bool.or_eq_false_iff.mp (Bool.of_not_eq_true hguard) with ⟨h1, h2⟩
      rcases Bool.or_eq_false_iff.mp h1 with ⟨h3, h4⟩
      simpa using h4
    split at h
    next => simp at h
    next hfind =>
      split at h
      next => simp at h
      next email hemail =>
        split at h
        next => simp at h
        next hnoem =>
          split at h
          next uname pw hstrip hpw =>
            split at h
            next st2 u2 hsave =>
              simp only [Prod.mk.injEq, ApiResult.ok.injEq] at h
              obtain ⟨hst, -, hu⟩ := h
              obtain ⟨hun, hus⟩ := saveUser_some st uname _ _ st2 u2 hsave
              refine ⟨uname, pw, htr, hfind, hstrip, hpw, ?_, ?_⟩
              · rw [← hu]
                exact hun
              · rw [← hst, hus, hu]
            next st2 hsave => simp at h
          next => simp at h

/-- Counterexample to C8 as stated: after registering "bob", a second
Register with the same username but an empty password fails with the
missing-fields message "Username and password are required", not with the
conflict message "Username already exists". -/
theorem second_register_empty_password_other_message :
    (register
        (register ⟨[], [], 1, 1⟩
          [("username", JVal.str "bob"), ("password", JVal.str "pw")]).1
        [("username", JVal.str "bob"), ("password", JVal.str "")]).2
      = ApiResult.fail 400 "Username and password are required" := by
  decide

/-- Claim C8 (amended): after a successful Register of a username, a second
Register supplying the same username value never persists a new user row,
whatever email or password it carries; and whenever the second call's
password is truthy and the shared username string equals its own strip, the
second call fails with 400 "Username already exists" (a falsy password
instead hits the missing-fields 400, and a username with surrounding
whitespace instead hits the save-stage uniqueness failure, HTTP 500 — in
every case nothing is persisted). -/
theorem register_duplicate_username (st st1 : DB) (u : User) (data1 data2 : Req)
    (h1 : register st data1 = (st1, ApiResult.ok 201 u))
    (hsame : getJV data2 "username" = getJV data1 "username") :
    (register st1 data2).1 = st1 ∧
    (∀ s, getJV data1 "username" = JVal.str s → pyStrip s = s →
      pyTruthy (getJV data2 "password") = true →
      register st1 data2 = (st1, ApiResult.fail 400 "Username already exists")) := by
  obtain ⟨uname, pw, htr1, hnofind, hstrip1, hpw1, hstored, husers⟩ :=
    register_ok_inv st data1 st1 u h1
  have humem : u ∈ st1.users := by
    rw [husers]
    exact List.mem_append_right _ (List.mem_singleton.mpr rfl)
  constructor
  · by_cases hg : (data2.isEmpty || !pyTruthy (getJV data2 "username")
        || !pyTruthy (getJV data2 "password")) = true
    · simp [register, hg]
    · have hg' := Bool.of_not_eq_true hg
      obtain ⟨hg1, hC⟩ := Bool.or_eq_false_iff.mp hg'
      obtain ⟨hA, hB⟩ := Bool.or_eq_false_iff.mp hg1
      have hB' : pyTruthy (getJV data2 "username") = true := by simpa using hB
      have hC' : pyTruthy (getJV data2 "password") = true := by simpa using hC
      cases hfind : find_by_username_j st1 (getJV data2 "username") with
      | some u2 => simp [register, hA, hB', hC', hfind]
      | none =>
        cases hem : pyStripJ (getJVD data2 "email" (JVal.str "")) with
        | error e => simp [register, hA, hB', hC', hfind, hem]
        | ok email =>
          by_cases hex : email ≠ "" ∧ (find_by_email st1 email).isSome
          · simp [register, hA, hB', hC', hfind, hem, hex]
          · have hstrip2 : pyStripJ (getJV data2 "username") = Except.ok uname := by
              rw [hsame]
              exact hstrip1
            have hany : st1.users.any (fun x => x.username == uname) = true := by
              rw [List.any_eq_true]
              exact ⟨u, humem, by simp [hstored]⟩
            cases hpw2 : getJV data2 "password" with
            | str p2 =>
              rw [hpw2] at hC'
              simp [register, hA, hB', hC', hfind, hem, hex, hstrip2, hpw2,
                saveUser_existing st1 uname _ _ hany]
            | null =>
              rw [hpw2] at hC'
              simp [pyTruthy] at hC'
            | num q =>
              rw [hpw2] at hC'
              simp [register, hA, hB', hC', hfind, hem, hex, hstrip2, hpw2]
            | bool b =>
              rw [hpw2] at hC'
              simp [register, hA, hB', hC', hfind, hem, hex, hstrip2, hpw2]
  · intro s hss hpss hpw2
    have huname : uname = s := by
      rw [hss] at hstrip1
      simp [pyStripJ] at hstrip1
      rw [← hstrip1, hpss]
    have hne2 : data2.isEmpty = false :=
      getJV_str_nonempty data2 "username" s (by rw [hsame, hss])
    have htr2 : pyTruthy (getJV data2 "username") = true := by
      rw [hsame, hss]
      rw [hss] at htr1
      exact htr1
    have hfound : (find_by_username_j st1 (getJV data2 "username")).isSome := by
      rw [hsame, hss, find_by_username_j, List.find?_isSome]
      exact ⟨u, humem, by simp [hstored, huname]⟩
    obtain ⟨u2, hfind⟩ := Option.isSome_iff_exists.mp hfound
    simp [register, hne2, htr2, hpw2, hfind]

/-- Witness for C8 (amended): registering "bob" twice with proper payloads;
the second attempt answers the conflict and stores nothing. -/
theorem register_duplicate_username_witness :
    (register
        (register ⟨[], [], 1, 1⟩
          [("username", JVal.str "bob"), ("password", JVal.str "pw")]).1
        [("username", JVal.str "bob"), ("password", JVal.str "pw2"),
         ("email", JVal.str "b@x.com")]).1
      = (register ⟨[], [], 1, 1⟩
          [("username", JVal.str "bob"), ("password", JVal.str "pw")]).1 ∧
    register
        (register ⟨[], [], 1, 1⟩
          [("username", JVal.str "bob"), ("password", JVal.str "pw")]).1
        [("username", JVal.str "bob"), ("password", JVal.str "pw2"),
         ("email", JVal.str "b@x.com")]
      = ((register ⟨[], [], 1, 1⟩
            [("username", JVal.str "bob"), ("password", JVal.str "pw")]).1,
         ApiResult.fail 400 "Username already exists") :=
  ⟨(register_duplicate_username ⟨[], [], 1, 1⟩
      ⟨[⟨1, "bob", none, "pbkdf2:pw", false⟩], [], 2, 1⟩
      ⟨1, "bob", none, "pbkdf2:pw", false⟩
      [("username", JVal.str "bob"), ("password", JVal.str "pw")]
      [("username", JVal.str "bob"), ("password", JVal.str "pw2"),
       ("email", JVal.str "b@x.com")]
      (by decide) (by decide)).1,
   (register_duplicate_username ⟨[], [], 1, 1⟩
      ⟨[⟨1, "bob", none, "pbkdf2:pw", false⟩], [], 2, 1⟩
      ⟨1, "bob", none, "pbkdf2:pw", false⟩
      [("username", JVal.str "bob"), ("password", JVal.str "pw")]
      [("username", JVal.str "bob"), ("password", JVal.str "pw2"),
       ("email", JVal.str "b@x.com")]
      (by decide) (by decide)).2 "bob" (by decide) (by decide) (by decide)⟩

/-- Counterexample to C6 as stated: the query is interpolated into a SQL
LIKE pattern unescaped, so the query "_" acts as a one-character wildcard:
Search returns alice's device "ab" although none of its four searched
fields contains "_" as a substring. -/
theorem search_wildcard_breaks_substring_reading :
    search_route stW "alice" "_" = ApiResult.ok 200 [devAB] ∧
    specSearchMatches "_" devAB = false := by
  decide

/-- Claim C6 (amended): Search with an empty query answers 200 with the
empty list — not an error and not the full device list; with a non-empty
query it answers 200 with exactly the caller's devices whose name,
description, location, or category matches the SQL LIKE pattern
`%query%` — ASCII-case-insensitively, with `%` and `_` in the query acting
as wildcards, which coincides with plain substring containment only for
wildcard-free queries — ordered by creation time descending. -/
theorem search_empty_and_like_filter
    (st : DB) (identity q : String) (cu : User)
    (hu : find_by_username st identity = some cu) (h0 : cu.id ≠ 0) (hq : q ≠ "") :
    search_route st identity "" = ApiResult.ok 200 [] ∧
    search_route st identity q = ApiResult.ok 200 (search_devices st q cu.id) ∧
    List.Perm (search_devices st q cu.id)
      (st.devices.filter (fun d => (d.user_id == cu.id) && deviceLikeMatch q d)) ∧
    (search_devices st q cu.id).Sorted createdDesc := by
  refine ⟨by simp [search_route], by simp [search_route, hq, hu], ?_, ?_⟩
  · unfold search_devices orderByCreatedDesc
    rw [if_pos h0, List.filter_filter]
    exact List.perm_insertionSort _ _
  · unfold search_devices orderByCreatedDesc
    exact List.sorted_insertionSort createdDesc _

/-- Witness for C6 (amended) at a concrete store and the query "ab". -/
theorem search_empty_and_like_filter_witness :
    search_route stW "alice" "" = ApiResult.ok 200 [] ∧
    search_route stW "alice" "ab" = ApiResult.ok 200 (search_devices stW "ab" alice.id) :=
  ⟨(search_empty_and_like_filter stW "alice" "ab" alice
      (by decide) (by decide) (by decide)).1,
   (search_empty_and_like_filter stW "alice" "ab" alice
      (by decide) (by decide) (by decide)).2.1⟩

/-- Outcomes of the name step of Update. -/
theorem updName_ok (data : Req) (d d' : Device) (h : updName data d = Except.ok d') :
    (reqFind data "name" = none ∧ d' = d) ∨
    (∃ s, reqFind data "name" = some (JVal.str s) ∧ d' = { d with name := pyStrip s }) := by
  unfold updName at h
  split at h
  next hk =>
    injection h with h
    exact Or.inl ⟨hk, h.symm⟩
  next v hk =>
    cases v with
    | str s =>
      simp [pyStripJ, Except.map] at h
      exact Or.inr ⟨s, hk, h.symm⟩
    | null => simp [pyStripJ, Except.map] at h
    | num q => simp [pyStripJ, Except.map] at h
    | bool b => simp [pyStripJ, Except.map] at h

/-- Outcomes of the description step of Update. -/
theorem updDescription_ok (data : Req) (d d' : Device)
    (h : updDescription data d = Except.ok d') :
    (reqFind data "description" = none ∧ d' = d) ∨
    (∃ s, reqFind data "description" = some (JVal.str s) ∧
      d' = { d with description := pyStrip s }) := by
  unfold updDescription at h
  split at h
  next hk =>
    injection h with h
    exact Or.inl ⟨hk, h.symm⟩
  next v hk =>
    cases v with
    | str s =>
      simp [pyStripJ, Except.map] at h
      exact Or.inr ⟨s, hk, h.symm⟩
    | null => simp [pyStripJ, Except.map] at h
    | num q => simp [pyStripJ, Except.map] at h
    | bool b => simp [pyStripJ, Except.map] at h

/-- Outcomes of the category step of Update. -/
theorem updCategory_ok (data : Req) (d d' : Device)
    (h : updCategory data d = Except.ok d') :
    (reqFind data "category" = none ∧ d' = d) ∨
    (∃ s, reqFind data "category" = some (JVal.str s) ∧
      d' = { d with category := pyStrip s }) := by
  unfold updCategory at h
  split at h
  next hk =>
    injection h with h
    exact Or.inl ⟨hk, h.symm⟩
  next v hk =>
    cases v with
    | str s =>
      simp [pyStripJ, Except.map] at h
      exact Or.inr ⟨s, hk, h.symm⟩
    | null => simp [pyStripJ, Except.map] at h
    | num q => simp [pyStripJ, Except.map] at h
    | bool b => simp [pyStripJ, Except.map] at h

/-- Outcomes of the location step of Update. -/
theorem updLocation_ok (data : Req) (d d' : Device)
    (h : updLocation data d = Except.ok d') :
    (reqFind data "location" = none ∧ d' = d) ∨
    (∃ s, reqFind data "location" = some (JVal.str s) ∧
      d' = { d with location := pyStrip s }) := by
  unfold updLocation at h
  split at h
  next hk =>
    injection h with h
    exact Or.inl ⟨hk, h.symm⟩
  next v hk =>
    cases v with
    | str s =>
      simp [pyStripJ, Except.map] at h
      exact Or.inr ⟨s, hk, h.symm⟩
    | null => simp [pyStripJ, Except.map] at h
    | num q => simp [pyStripJ, Except.map] at h
    | bool b => simp [pyStripJ, Except.map] at h

/-- Outcomes of the latitude step of Update. -/
theorem updLatitude_ok (data : Req) (d d' : Device)
    (h : updLatitude data d = Except.ok d') :
    (reqFind data "latitude" = none ∧ d' = d) ∨
    (∃ v r, reqFind data "latitude" = some v ∧ parseCoord v = Except.ok r ∧
      d' = { d with latitude := r }) := by
  unfold updLatitude at h
  split at h
  next hk =>
    injection h with h
    exact Or.inl ⟨hk, h.symm⟩
  next v hk =>
    cases hp : parseCoord v with
    | error e =>
      rw [hp] at h
      simp [Except.map] at h
    | ok r =>
      rw [hp] at h
      simp [Except.map] at h
      exact Or.inr ⟨v, r, hk, hp, h.symm⟩

/-- Outcomes of the longitude step of Update. -/
theorem updLongitude_ok (data : Req) (d d' : Device)
    (h : updLongitude data d = Except.ok d') :
    (reqFind data "longitude" = none ∧ d' = d) ∨
    (∃ v r, reqFind data "longitude" = some v ∧ parseCoord v = Except.ok r ∧
      d' = { d with longitude := r }) := by
  unfold updLongitude at h
  split at h
  next hk =>
    injection h with h
    exact Or.inl ⟨hk, h.symm⟩
  next v hk =>
    cases hp : parseCoord v with
    | error e =>
      rw [hp] at h
      simp [Except.map] at h
    | ok r =>
      rw [hp] at h
      simp [Except.map] at h
      exact Or.inr ⟨v, r, hk, hp, h.symm⟩

/-- The name step leaves every other field alone. -/
theorem updName_keeps (data : Req) (d d' : Device) (h : updName data d = Except.ok d') :
    d'.description = d.description ∧ d'.category = d.category ∧
    d'.location = d.location ∧ d'.status = d.status ∧ d'.latitude = d.latitude ∧
    d'.longitude = d.longitude ∧ d'.id = d.id ∧ d'.created_at = d.created_at ∧
    d'.user_id = d.user_id ∧ d'.updated_at = d.updated_at := by
  rcases updName_ok data d d' h with ⟨-, rfl⟩ | ⟨s, -, rfl⟩ <;>
    exact ⟨rfl, rfl, rfl, rfl, rfl, rfl, rfl, rfl, rfl, rfl⟩

/-- The description step leaves every other field alone. -/
theorem updDescription_keeps (data : Req) (d d' : Device)
    (h : updDescription data d = Except.ok d') :
    d'.name = d.name ∧ d'.category = d.category ∧
    d'.location = d.location ∧ d'.status = d.status ∧ d'.latitude = d.latitude ∧
    d'.longitude = d.longitude ∧ d'.id = d.id ∧ d'.created_at = d.created_at ∧
    d'.user_id = d.user_id ∧ d'.updated_at = d.updated_at := by
  rcases updDescription_ok data d d' h with ⟨-, rfl⟩ | ⟨s, -, rfl⟩ <;>
    exact ⟨rfl, rfl, rfl, rfl, rfl, rfl, rfl, rfl, rfl, rfl⟩

/-- The category step leaves every other field alone. -/
theorem updCategory_keeps (data : Req) (d d' : Device)
    (h : updCategory data d = Except.ok d') :
    d'.name = d.name ∧ d'.description = d.description ∧
    d'.location = d.location ∧ d'.status = d.status ∧ d'.latitude = d.latitude ∧
    d'.longitude = d.longitude ∧ d'.id = d.id ∧ d'.created_at = d.created_at ∧
    d'.user_id = d.user_id ∧ d'.updated_at = d.updated_at := by
  rcases updCategory_ok data d d' h with ⟨-, rfl⟩ | ⟨s, -, rfl⟩ <;>
    exact ⟨rfl, rfl, rfl, rfl, rfl, rfl, rfl, rfl, rfl, rfl⟩

/-- The location step leaves every other field alone. -/
theorem updLocation_keeps (data : Req) (d d' : Device)
    (h : updLocation data d = Except.ok d') :
    d'.name = d.name ∧ d'.description = d.description ∧
    d'.category = d.category ∧ d'.status = d.status ∧ d'.latitude = d.latitude ∧
    d'.longitude = d.longitude ∧ d'.id = d.id ∧ d'.created_at = d.created_at ∧
    d'.user_id = d.user_id ∧ d'.updated_at = d.updated_at := by
  rcases updLocation_ok data d d' h with ⟨-, rfl⟩ | ⟨s, -, rfl⟩ <;>
    exact ⟨rfl, rfl, rfl, rfl, rfl, rfl, rfl, rfl, rfl, rfl⟩

/-- The status step leaves every other field alone. -/
theorem updStatus_keeps (data : Req) (d : Device) :
    (updStatus data d).name = d.name ∧ (updStatus data d).description = d.description ∧
    (updStatus data d).category = d.category ∧ (updStatus data d).location = d.location ∧
    (updStatus data d).latitude = d.latitude ∧ (updStatus data d).longitude = d.longitude ∧
    (updStatus data d).id = d.id ∧ (updStatus data d).created_at = d.created_at ∧
    (updStatus data d).user_id = d.user_id ∧ (updStatus data d).updated_at = d.updated_at := by
  unfold updStatus
  split <;> exact ⟨rfl, rfl, rfl, rfl, rfl, rfl, rfl, rfl, rfl, rfl⟩

/-- The latitude step leaves every other field alone. -/
theorem updLatitude_keeps (data : Req) (d d' : Device)
    (h : updLatitude data d = Except.ok d') :
    d'.name = d.name ∧ d'.description = d.description ∧
    d'.category = d.category ∧ d'.location = d.location ∧ d'.status = d.status ∧
    d'.longitude = d.longitude ∧ d'.id = d.id ∧ d'.created_at = d.created_at ∧
    d'.user_id = d.user_id ∧ d'.updated_at = d.updated_at := by
  rcases updLatitude_ok data d d' h with ⟨-, rfl⟩ | ⟨v, r, -, -, rfl⟩ <;>
    exact ⟨rfl, rfl, rfl, rfl, rfl, rfl, rfl, rfl, rfl, rfl⟩

/-- The longitude step leaves every other field alone. -/
theorem updLongitude_keeps (data : Req) (d d' : Device)
    (h : updLongitude data d = Except.ok d') :
    d'.name = d.name ∧ d'.description = d.description ∧
    d'.category = d.category ∧ d'.location = d.location ∧ d'.status = d.status ∧
    d'.latitude = d.latitude ∧ d'.id = d.id ∧ d'.created_at = d.created_at ∧
    d'.user_id = d.user_id ∧ d'.updated_at = d.updated_at := by
  rcases updLongitude_ok data d d' h with ⟨-, rfl⟩ | ⟨v, r, -, -, rfl⟩ <;>
    exact ⟨rfl, rfl, rfl, rfl, rfl, rfl, rfl, rfl, rfl, rfl⟩

/-- Status step when the key is absent. -/
theorem updStatus_none (data : Req) (d : Device)
    (hk : reqFind data "status" = none) : updStatus data d = d := by
  unfold updStatus
  rw [hk]

/-- Status step applying "lost". -/
theorem updStatus_lost (data : Req) (d : Device)
    (hk : reqFind data "status" = some (JVal.str "lost")) :
    updStatus data d = { d with status := "lost" } := by
  unfold updStatus
  rw [hk]
  rfl

/-- Status step applying "found". -/
theorem updStatus_found (data : Req) (d : Device)
    (hk : reqFind data "status" = some (JVal.str "found")) :
    updStatus data d = { d with status := "found" } := by
  unfold updStatus
  rw [hk]
  rfl

/-- Status step ignoring an invalid supplied status. -/
theorem updStatus_other (data : Req) (d : Device) (v : JVal)
    (hk : reqFind data "status" = some v)
    (h1 : v ≠ JVal.str "lost") (h2 : v ≠ JVal.str "found") :
    updStatus data d = d := by
  unfold updStatus
  split
  next heq =>
    rw [hk] at heq
    injection heq with heq
    exact absurd heq h1
  next heq =>
    rw [hk] at heq
    injection heq with heq
    exact absurd heq h2
  next => rfl

/-- Decomposition of a successful string-fields pass. -/
theorem updStrings_ok_inv (data : Req) (d d4 : Device)
    (h : updStrings data d = Except.ok d4) :
    ∃ d1 d2 d3, updName data d = Except.ok d1 ∧
      updDescription data d1 = Except.ok d2 ∧
      updCategory data d2 = Except.ok d3 ∧
      updLocation data d3 = Except.ok d4 := by
  unfold updStrings at h
  cases h1 : updName data d with
  | error e =>
    rw [h1] at h
    simp [Except.instMonad, Except.bind] at h
  | ok d1 =>
    rw [h1] at h
    simp only [Except.instMonad, Except.bind] at h
    cases h2 : updDescription data d1 with
    | error e =>
      rw [h2] at h
      simp [Except.instMonad, Except.bind] at h
    | ok d2 =>
      rw [h2] at h
      simp only [Except.instMonad, Except.bind] at h
      cases h3 : updCategory data d2 with
      | error e =>
        rw [h3] at h
        simp [Except.instMonad, Except.bind] at h
      | ok d3 =>
        rw [h3] at h
        simp only [Except.instMonad, Except.bind] at h
        exact ⟨d1, d2, d3, rfl, h2, h3, h⟩

/-- The string-fields pass leaves the non-string fields alone. -/
theorem updStrings_keeps (data : Req) (d d4 : Device)
    (h : updStrings data d = Except.ok d4) :
    d4.status = d.status ∧ d4.latitude = d.latitude ∧ d4.longitude = d.longitude ∧
    d4.id = d.id ∧ d4.created_at = d.created_at ∧ d4.user_id = d.user_id ∧
    d4.updated_at = d.updated_at := by
  obtain ⟨d1, d2, d3, h1, h2, h3, h4⟩ := updStrings_ok_inv data d d4 h
  have k1 := updName_keeps data d d1 h1
  have k2 := updDescription_keeps data d1 d2 h2
  have k3 := updCategory_keeps data d2 d3 h3
  have k4 := updLocation_keeps data d3 d4 h4
  obtain ⟨-, -, -, k1st, k1la, k1lo, k1id, k1cr, k1us, k1up⟩ := k1
  obtain ⟨-, -, -, k2st, k2la, k2lo, k2id, k2cr, k2us, k2up⟩ := k2
  obtain ⟨-, -, -, k3st, k3la, k3lo, k3id, k3cr, k3us, k3up⟩ := k3
  obtain ⟨-, -, -, k4st, k4la, k4lo, k4id, k4cr, k4us, k4up⟩ := k4
  exact ⟨by rw [k4st, k3st, k2st, k1st], by rw [k4la, k3la, k2la, k1la],
    by rw [k4lo, k3lo, k2lo, k1lo], by rw [k4id, k3id, k2id, k1id],
    by rw [k4cr, k3cr, k2cr, k1cr], by rw [k4us, k3us, k2us, k1us],
    by rw [k4up, k3up, k2up, k1up]⟩

/-- How the string-fields pass computes the final name. -/
theorem updStrings_name (data : Req) (d d4 : Device)
    (h : updStrings data d = Except.ok d4) :
    (reqFind data "name" = none → d4.name = d.name) ∧
    (∀ s, reqFind data "name" = some (JVal.str s) → d4.name = pyStrip s) := by
  obtain ⟨d1, d2, d3, h1, h2, h3, h4⟩ := updStrings_ok_inv data d d4 h
  have k2 := (updDescription_keeps data d1 d2 h2).1
  have k3 := (updCategory_keeps data d2 d3 h3).1
  have k4 := (updLocation_keeps data d3 d4 h4).1
  constructor
  · intro hk
    rcases updName_ok data d d1 h1 with ⟨-, rfl⟩ | ⟨s, hks, -⟩
    · rw [k4, k3, k2]
    · rw [hk] at hks
      simp at hks
  · intro s hk
    rcases updName_ok data d d1 h1 with ⟨hkn, -⟩ | ⟨s2, hks, rfl⟩
    · rw [hk] at hkn
      simp at hkn
    · rw [hk] at hks
      injection hks with hks
      injection hks with hks
      subst hks
      rw [k4, k3, k2]

/-- How the string-fields pass computes the final description. -/
theorem updStrings_description (data : Req) (d d4 : Device)
    (h : updStrings data d = Except.ok d4) :
    (reqFind data "description" = none → d4.description = d.description) ∧
    (∀ s, reqFind data "description" = some (JVal.str s) →
      d4.description = pyStrip s) := by
  obtain ⟨d1, d2, d3, h1, h2, h3, h4⟩ := updStrings_ok_inv data d d4 h
  have k1 := (updName_keeps data d d1 h1).1
  have k3 := (updCategory_keeps data d2 d3 h3).2.1
  have k4 := (updLocation_keeps data d3 d4 h4).2.1
  constructor
  · intro hk
    rcases updDescription_ok data d1 d2 h2 with ⟨-, rfl⟩ | ⟨s, hks, -⟩
    · rw [k4, k3, k1]
    · rw [hk] at hks
      simp at hks
  · intro s hk
    rcases updDescription_ok data d1 d2 h2 with ⟨hkn, -⟩ | ⟨s2, hks, rfl⟩
    · rw [hk] at hkn
      simp at hkn
    · rw [hk] at hks
      injection hks with hks
      injection hks with hks
      subst hks
      rw [k4, k3]

/-- How the string-fields pass computes the final category. -/
theorem updStrings_category (data : Req) (d d4 : Device)
    (h : updStrings data d = Except.ok d4) :
    (reqFind data "category" = none → d4.category = d.category) ∧
    (∀ s, reqFind data "category" = some (JVal.str s) → d4.category = pyStrip s) := by
  obtain ⟨d1, d2, d3, h1, h2, h3, h4⟩ := updStrings_ok_inv data d d4 h
  have k1 := (updName_keeps data d d1 h1).2.1
  have k2 := (updDescription_keeps data d1 d2 h2).2.1
  have k4 := (updLocation_keeps data d3 d4 h4).2.2.1
  constructor
  · intro hk
    rcases updCategory_ok data d2 d3 h3 with ⟨-, rfl⟩ | ⟨s, hks, -⟩
    · rw [k4, k2, k1]
    · rw [hk] at hks
      simp at hks
  · intro s hk
    rcases updCategory_ok data d2 d3 h3 with ⟨hkn, -⟩ | ⟨s2, hks, rfl⟩
    · rw [hk] at hkn
      simp at hkn
    · rw [hk] at hks
      injection hks with hks
      injection hks with hks
      subst hks
      rw [k4]

/-- How the string-fields pass computes the final location. -/
theorem updStrings_location (data : Req) (d d4 : Device)
    (h : updStrings data d = Except.ok d4) :
    (reqFind data "location" = none → d4.location = d.location) ∧
    (∀ s, reqFind data "location" = some (JVal.str s) → d4.location = pyStrip s) := by
  obtain ⟨d1, d2, d3, h1, h2, h3, h4⟩ := updStrings_ok_inv data d d4 h
  have k1 := (updName_keeps data d d1 h1).2.2.1
  have k2 := (updDescription_keeps data d1 d2 h2).2.2.1
  have k3 := (updCategory_keeps data d2 d3 h3).2.2.1
  constructor
  · intro hk
    rcases updLocation_ok data d3 d4 h4 with ⟨-, rfl⟩ | ⟨s, hks, -⟩
    · rw [k3, k2, k1]
    · rw [hk] at hks
      simp at hks
  · intro s hk
    rcases updLocation_ok data d3 d4 h4 with ⟨hkn, -⟩ | ⟨s2, hks, rfl⟩
    · rw [hk] at hkn
      simp at hkn
    · rw [hk] at hks
      injection hks with hks
      injection hks with hks
      subst hks
      rfl

/-- Decomposition of a successful Update-body run. -/
theorem applyUpdate_ok_inv (data : Req) (d : Device) (now : Nat) (d' : Device)
    (h : applyUpdate data d now = Except.ok d') :
    ∃ d4 d6 d7, updStrings data d = Except.ok d4 ∧
      updLatitude data (updStatus data d4) = Except.ok d6 ∧
      updLongitude data d6 = Except.ok d7 ∧
      d' = { d7 with updated_at := now } := by
  unfold applyUpdate at h
  cases h4 : updStrings data d with
  | error e =>
    rw [h4] at h
    simp [Except.instMonad, Except.bind] at h
  | ok d4 =>
    rw [h4] at h
    simp only [Except.instMonad, Except.bind] at h
    cases h6 : updLatitude data (updStatus data d4) with
    | error e =>
      rw [h6] at h
      simp [Except.instMonad, Except.bind] at h
    | ok d6 =>
      rw [h6] at h
      simp only [Except.instMonad, Except.bind] at h
      cases h7 : updLongitude data d6 with
      | error e =>
        rw [h7] at h
        simp [Except.instMonad, Except.bind] at h
      | ok d7 =>
        rw [h7] at h
        simp only [Except.instMonad, Except.bind] at h
        injection h with h
        exact ⟨d4, d6, d7, rfl, h6, h7, h.symm⟩

/-- A successful Update-body run changes the status to "lost" or "found" or
not at all. -/
theorem applyUpdate_status_cases (data : Req) (d0 : Device) (now : Nat)
    (d' : Device) (h : applyUpdate data d0 now = Except.ok d') :
    d'.status = d0.status ∨ d'.status = "lost" ∨ d'.status = "found" := by
  obtain ⟨d4, d6, d7, h4, h6, h7, rfl⟩ := applyUpdate_ok_inv data d0 now d' h
  have bst := (updLongitude_keeps data d6 d7 h7).2.2.2.2.1
  have ast := (updLatitude_keeps data (updStatus data d4) d6 h6).2.2.2.2.1
  have sst := (updStrings_keeps data d0 d4 h4).1
  show d7.status = d0.status ∨ d7.status = "lost" ∨ d7.status = "found"
  rw [bst, ast]
  unfold updStatus
  split
  · right
    left
    rfl
  · right
    right
    rfl
  · left
    exact sst

/-- Inversion of a successful Update: the checks it passed, the body run,
and the row replacement it committed. -/
theorem update_device_ok_inv (st : DB) (identity : String) (device_id : Nat)
    (data : Req) (now : Nat) (st' : DB) (c : Nat) (d' : Device)
    (h : update_device st identity device_id data now = (st', ApiResult.ok c d')) :
    c = 200 ∧
    ∃ cu d0, find_by_username st identity = some cu ∧
      find_device_by_id st device_id = some d0 ∧ d0.user_id = cu.id ∧
      applyUpdate data d0 now = Except.ok d' ∧
      st' = ⟨st.users, st.devices.map (fun x => if x.id = device_id then d' else x),
             st.nextUserId, st.nextDeviceId⟩ := by
  unfold update_device at h
  split at h
  · simp at h
  next cu hcu =>
    split at h
    · simp at h
    next d0 hd0 =>
      split at h
      next hown => simp at h
      next hown =>
        split at h
        next e happ => simp at h
        next dmid happ =>
          simp only [Prod.mk.injEq, ApiResult.ok.injEq] at h
          obtain ⟨hst, hc, hdm⟩ := h
          subst hdm
          exact ⟨hc.symm, cu, d0, hcu, hd0, Decidable.not_not.mp hown, happ, hst.symm⟩

/-- Field-by-field description of a successful Update-body run: absent keys
keep the prior value, present keys are applied under the handler's rules,
`updated_at` is always refreshed, the identity fields never change. -/
theorem applyUpdate_fields (data : Req) (d0 : Device) (now : Nat) (d' : Device)
    (h : applyUpdate data d0 now = Except.ok d') :
    (reqFind data "name" = none → d'.name = d0.name) ∧
    (reqFind data "description" = none → d'.description = d0.description) ∧
    (reqFind data "category" = none → d'.category = d0.category) ∧
    (reqFind data "location" = none → d'.location = d0.location) ∧
    (reqFind data "status" = none → d'.status = d0.status) ∧
    (reqFind data "latitude" = none → d'.latitude = d0.latitude) ∧
    (reqFind data "longitude" = none → d'.longitude = d0.longitude) ∧
    d'.id = d0.id ∧ d'.created_at = d0.created_at ∧ d'.user_id = d0.user_id ∧
    d'.updated_at = now ∧
    (∀ s, reqFind data "name" = some (JVal.str s) → d'.name = pyStrip s) ∧
    (∀ s, reqFind data "description" = some (JVal.str s) →
      d'.description = pyStrip s) ∧
    (∀ s, reqFind data "category" = some (JVal.str s) → d'.category = pyStrip s) ∧
    (∀ s, reqFind data "location" = some (JVal.str s) → d'.location = pyStrip s) ∧
    (reqFind data "status" = some (JVal.str "lost") → d'.status = "lost") ∧
    (reqFind data "status" = some (JVal.str "found") → d'.status = "found") ∧
    (∀ v, reqFind data "status" = some v → v ≠ JVal.str "lost" →
      v ≠ JVal.str "found" → d'.status = d0.status) ∧
    (∀ v, reqFind data "latitude" = some v → parseCoord v = Except.ok d'.latitude) ∧
    (∀ v, reqFind data "longitude" = some v → parseCoord v = Except.ok d'.longitude) := by
  obtain ⟨d4, d6, d7, h4, h6, h7, rfl⟩ := applyUpdate_ok_inv data d0 now d' h
  obtain ⟨sst, sla, slo, sid, scr, sus, -⟩ := updStrings_keeps data d0 d4 h4
  obtain ⟨tn, td, tc, tl, tla, tlo, tid, tcr, tus, -⟩ := updStatus_keeps data d4
  obtain ⟨an, ad, ac, al, ast, alo, aid, acr, aus, -⟩ :=
    updLatitude_keeps data (updStatus data d4) d6 h6
  obtain ⟨bn, bd, bc, bl, bst, bla, bid, bcr, bus, -⟩ :=
    updLongitude_keeps data d6 d7 h7
  obtain ⟨nameN, nameS⟩ := updStrings_name data d0 d4 h4
  obtain ⟨descN, descS⟩ := updStrings_description data d0 d4 h4
  obtain ⟨catN, catS⟩ := updStrings_category data d0 d4 h4
  obtain ⟨locN, locS⟩ := updStrings_location data d0 d4 h4
  refine ⟨?_, ?_, ?_, ?_, ?_, ?_, ?_, ?_, ?_, ?_, rfl, ?_, ?_, ?_, ?_, ?_, ?_, ?_, ?_, ?_⟩
  · intro hk
    show d7.name = d0.name
    rw [bn, an, tn]
    exact nameN hk
  · intro hk
    show d7.description = d0.description
    rw [bd, ad, td]
    exact descN hk
  · intro hk
    show d7.category = d0.category
    rw [bc, ac, tc]
    exact catN hk
  · intro hk
    show d7.location = d0.location
    rw [bl, al, tl]
    exact locN hk
  · intro hk
    show d7.status = d0.status
    rw [bst, ast, updStatus_none data d4 hk]
    exact sst
  · intro hk
    show d7.latitude = d0.latitude
    rw [bla]
    rcases updLatitude_ok data (updStatus data d4) d6 h6 with ⟨-, rfl⟩ | ⟨v, r, hkv, -, -⟩
    · rw [tla]
      exact sla
    · rw [hk] at hkv
      simp at hkv
  · intro hk
    show d7.longitude = d0.longitude
    rcases updLongitude_ok data d6 d7 h7 with ⟨-, rfl⟩ | ⟨v, r, hkv, -, -⟩
    · rw [alo, tlo]
      exact slo
    · rw [hk] at hkv
      simp at hkv
  · show d7.id = d0.id
    rw [bid, aid, tid]
    exact sid
  · show d7.created_at = d0.created_at
    rw [bcr, acr, tcr]
    exact scr
  · show d7.user_id = d0.user_id
    rw [bus, aus, tus]
    exact sus
  · intro s hk
    show d7.name = pyStrip s
    rw [bn, an, tn]
    exact nameS s hk
  · intro s hk
    show d7.description = pyStrip s
    rw [bd, ad, td]
    exact descS s hk
  · intro s hk
    show d7.category = pyStrip s
    rw [bc, ac, tc]
    exact catS s hk
  · intro s hk
    show d7.location = pyStrip s
    rw [bl, al, tl]
    exact locS s hk
  · intro hk
    show d7.status = "lost"
    rw [bst, ast, updStatus_lost data d4 hk]
  · intro hk
    show d7.status = "found"
    rw [bst, ast, updStatus_found data d4 hk]
  · intro v hk h1 h2
    show d7.status = d0.status
    rw [bst, ast, updStatus_other data d4 v hk h1 h2]
    exact sst
  · intro v hk
    show parseCoord v = Except.ok d7.latitude
    rw [bla]
    rcases updLatitude_ok data (updStatus data d4) d6 h6 with ⟨hkn, -⟩ | ⟨v2, r, hkv, hpc, rfl⟩
    · rw [hk] at hkn
      simp at hkn
    · rw [hk] at hkv
      injection hkv with hkv
      subst hkv
      exact hpc
  · intro v hk
    show parseCoord v = Except.ok d7.longitude
    rcases updLongitude_ok data d6 d7 h7 with ⟨hkn, -⟩ | ⟨v2, r, hkv, hpc, rfl⟩
    · rw [hk] at hkn
      simp at hkn
    · rw [hk] at hkv
      injection hkv with hkv
      subst hkv
      exact hpc

/-- Claim C9: for every accepted Update by a device's owner only the target
row is replaced and only the fields present in the request body change —
string fields to their trimmed values, status only when valid (an invalid
supplied status leaves the prior one), coordinates with the same
null-vs-empty handling as Create — every field whose key is absent keeps
its prior stored value, the identity fields never change, and updated_at
is refreshed to the commit tick on every accepted update. -/
theorem update_partial_only_present_fields
    (st : DB) (identity : String) (device_id : Nat) (data : Req) (now : Nat)
    (st' : DB) (d0 d' : Device)
    (hd0 : find_device_by_id st device_id = some d0)
    (hok : update_device st identity device_id data now
      = (st', ApiResult.ok 200 d')) :
    st'.devices = st.devices.map (fun x => if x.id = device_id then d' else x) ∧
    (reqFind data "name" = none → d'.name = d0.name) ∧
    (reqFind data "description" = none → d'.description = d0.description) ∧
    (reqFind data "category" = none → d'.category = d0.category) ∧
    (reqFind data "location" = none → d'.location = d0.location) ∧
    (reqFind data "status" = none → d'.status = d0.status) ∧
    (reqFind data "latitude" = none → d'.latitude = d0.latitude) ∧
    (reqFind data "longitude" = none → d'.longitude = d0.longitude) ∧
    d'.id = d0.id ∧ d'.created_at = d0.created_at ∧ d'.user_id = d0.user_id ∧
    d'.updated_at = now ∧
    (∀ s, reqFind data "name" = some (JVal.str s) → d'.name = pyStrip s) ∧
    (∀ s, reqFind data "description" = some (JVal.str s) →
      d'.description = pyStrip s) ∧
    (∀ s, reqFind data "category" = some (JVal.str s) → d'.category = pyStrip s) ∧
    (∀ s, reqFind data "location" = some (JVal.str s) → d'.location = pyStrip s) ∧
    (reqFind data "status" = some (JVal.str "lost") → d'.status = "lost") ∧
    (reqFind data "status" = some (JVal.str "found") → d'.status = "found") ∧
    (∀ v, reqFind data "status" = some v → v ≠ JVal.str "lost" →
      v ≠ JVal.str "found" → d'.status = d0.status) ∧
    (∀ v, reqFind data "latitude" = some v → parseCoord v = Except.ok d'.latitude) ∧
    (∀ v, reqFind data "longitude" = some v →
      parseCoord v = Except.ok d'.longitude) := by
  obtain ⟨-, cu, d1, -, hd1, -, happ, hst⟩ :=
    update_device_ok_inv st identity device_id data now st' 200 d' hok
  rw [hd0] at hd1
  injection hd1 with e
  subst e
  constructor
  · rw [hst]
  · exact applyUpdate_fields data d0 now d' happ

/-- Witness for C9: alice updates her device 1 supplying name " Laptop " and
status "found"; latitude (absent) is unchanged, updated_at is refreshed. -/
theorem update_partial_only_present_fields_witness :
    (⟨1, "Laptop", "", "", "", "found", none, none, 1, 9, 1⟩ : Device).updated_at = 9 ∧
    (⟨1, "Laptop", "", "", "", "found", none, none, 1, 9, 1⟩ : Device).latitude
      = devAB.latitude := by
  have h := update_partial_only_present_fields stW "alice" 1
    [("name", JVal.str " Laptop "), ("status", JVal.str "found")] 9
    ⟨[alice], [⟨1, "Laptop", "", "", "", "found", none, none, 1, 9, 1⟩, devOther], 2, 3⟩
    devAB ⟨1, "Laptop", "", "", "", "found", none, none, 1, 9, 1⟩
    (by decide) (by decide)
  exact ⟨h.2.2.2.2.2.2.2.2.2.2.2.1, h.2.2.2.2.2.2.1 (by decide)⟩

/-- Counterexample to C1 as stated: the coordinate conversion of Create runs
before the status check, so a request supplying the invalid status "stolen"
together with the unparseable latitude "abc" is answered with InternalError
500, not with the claimed ValidationError 400 (nothing is persisted). -/
theorem invalid_status_with_bad_coordinate_not_400 :
    add_device st0 "alice"
        [("name", JVal.str "Phone"), ("status", JVal.str "stolen"),
         ("latitude", JVal.str "abc")] 5
      = (st0, ApiResult.fail 500 "Failed to create device due to an internal error.")
    ∧ JVal.str "stolen" ≠ JVal.str "lost" ∧ JVal.str "stolen" ≠ JVal.str "found" := by
  decide

/-- Claim C1 (amended): the invariant "status is 'lost' or 'found'" is
preserved by Create and by Update against any request; Create rejects an
invalid supplied status with ValidationError 400 provided the rest of the
request is well-formed (name present, string fields strings, both
coordinates absent/empty/parseable — otherwise the earlier failure answers
first, e.g. 500 for an unparseable coordinate, with nothing persisted);
and an accepted owner Update applies a supplied status only when it is one
of the two values, keeping the prior status otherwise. -/
theorem device_status_always_lost_or_found :
    (∀ st identity data now, statusInv st →
      statusInv (add_device st identity data now).1) ∧
    (∀ st identity device_id data now, statusInv st →
      statusInv (update_device st identity device_id data now).1) ∧
    (∀ st identity data now cu flds lat lon,
      find_by_username st identity = some cu →
      (data.isEmpty || !pyTruthy (getJV data "name")) = false →
      createStrings data = Except.ok flds →
      parseCoord (getJV data "latitude") = Except.ok lat →
      parseCoord (getJV data "longitude") = Except.ok lon →
      createStatusVal data ≠ JVal.str "lost" →
      createStatusVal data ≠ JVal.str "found" →
      add_device st identity data now
        = (st, ApiResult.fail 400 "Status must be 'lost' or 'found'")) ∧
    (∀ st identity device_id data now st' d0 d' v,
      find_device_by_id st device_id = some d0 →
      update_device st identity device_id data now = (st', ApiResult.ok 200 d') →
      reqFind data "status" = some v → v ≠ JVal.str "lost" → v ≠ JVal.str "found" →
      d'.status = d0.status) := by
  refine ⟨?_, ?_, ?_, ?_⟩
  · intro st identity data now hinv
    unfold add_device
    split
    · exact hinv
    next cu hfu =>
      split
      · exact hinv
      · split
        · exact hinv
        next n de ca lo hcs =>
          split
          next lat lon hla hlo =>
            split
            · exact hinv
            next hstat =>
              intro d hd
              rcases List.mem_append.mp hd with hmem | hmem
              · exact hinv d hmem
              · rw [List.mem_singleton] at hmem
                subst hmem
                rcases Decidable.not_and_iff_or_not.mp hstat with h1 | h1
                · exact Or.inl (by rw [Decidable.not_not.mp h1]; rfl)
                · exact Or.inr (by rw [Decidable.not_not.mp h1]; rfl)
          all_goals exact hinv
  · intro st identity device_id data now hinv
    unfold update_device
    split
    · exact hinv
    next cu hcu =>
      split
      · exact hinv
      next d0 hd0 =>
        split
        · exact hinv
        next hown =>
          split
          · exact hinv
          next d' happ =>
            intro x hx
            rcases List.mem_map.mp hx with ⟨y, hy, hxy⟩
            by_cases hid : y.id = device_id
            · rw [if_pos hid] at hxy
              subst hxy
              rcases applyUpdate_status_cases data d0 now d' happ with hs | hs | hs
              · rw [hs]
                exact hinv d0 (List.mem_of_find?_eq_some hd0)
              · exact Or.inl hs
              · exact Or.inr hs
            · rw [if_neg hid] at hxy
              subst hxy
              exact hinv y hy
  · intro st identity data now cu flds lat lon hu hguard hcs hla hlo h1 h2
    obtain ⟨n, de, ca, lo⟩ := flds
    simp [add_device, hu, hguard, hcs, hla, hlo, h1, h2]
  · intro st identity device_id data now st' d0 d' v hd0 hok hk h1 h2
    obtain ⟨-, cu, d1, -, hd1, -, happ, -⟩ :=
      update_device_ok_inv st identity device_id data now st' 200 d' hok
    rw [hd0] at hd1
    injection hd1 with e
    subst e
    exact (applyUpdate_fields data d0 now d'
      happ).2.2.2.2.2.2.2.2.2.2.2.2.2.2.2.2.2.1 v hk h1 h2

/-- Witness for C1 (amended) at concrete requests: a plain Create and a
bogus-status Update preserve the invariant; a bad status with parseable
coordinates gets its 400; a bogus status on an accepted Update leaves the
stored status alone. -/
theorem device_status_always_lost_or_found_witness :
    statusInv (add_device st0 "alice" [("name", JVal.str "Phone")] 3).1 ∧
    statusInv (update_device stW "alice" 1 [("status", JVal.str "bogus")] 9).1 ∧
    add_device st0 "alice"
        [("name", JVal.str "Phone"), ("status", JVal.str "stolen")] 3
      = (st0, ApiResult.fail 400 "Status must be 'lost' or 'found'") ∧
    (⟨1, "ab", "", "", "", "lost", none, none, 1, 9, 1⟩ : Device).status
      = devAB.status := by
  refine ⟨device_status_always_lost_or_found.1 st0 "alice"
      [("name", JVal.str "Phone")] 3 ?_,
    device_status_always_lost_or_found.2.1 stW "alice" 1
      [("status", JVal.str "bogus")] 9 ?_,
    device_status_always_lost_or_found.2.2.1 st0 "alice"
      [("name", JVal.str "Phone"), ("status", JVal.str "stolen")] 3 alice
      ("Phone", "", "", "") none none (by decide) (by decide) (by decide)
      (by decide) (by decide) (by decide) (by decide),
    device_status_always_lost_or_found.2.2.2 stW "alice" 1
      [("status", JVal.str "bogus")] 9
      ⟨[alice], [⟨1, "ab", "", "", "", "lost", none, none, 1, 9, 1⟩, devOther], 2, 3⟩
      devAB ⟨1, "ab", "", "", "", "lost", none, none, 1, 9, 1⟩ (JVal.str "bogus")
      (by decide) (by decide) (by decide) (by decide) (by decide)⟩
  · intro d hd
    simp [st0] at hd
  · intro d hd
    simp [stW] at hd
    rcases hd with rfl | rfl <;> simp [devAB, devOther]

end LnF
